import Mathlib

/-!
Verification development for the 1-to-1 call signaling engine
(`src/callApi/core/callApi.ts`, class `CallApi`).

The engine is shallowly embedded: the mutable fields of the `CallApi`
class become a Lean structure, and every method / event handler becomes an
executable function from the engine state to a `Run`: the new engine
state, the ordered list of observable emissions produced while the
handler executed (each paired with a snapshot of the engine state at the
moment of emission), and the exception that escaped the handler, if any.

Modelling conventions, faithful to the single-threaded cooperative
scheduling of the source:
* `await`ed and `Promise.all`ed operations are sequenced left-to-right
  (one admissible schedule); the fire-and-forget `_rtcJoinAndPublish()`
  inside `call()` is run to completion at its call site and its
  exception, as in the source, does not abort `call()`.
* External I/O (send message, rtc join/publish/subscribe/leave, track
  creation) is modelled as succeeding; failure injection is not needed
  by any claim under study.
* Playback state of tracks (`isPlaying`) is not modelled; playback calls
  emit nothing observable.
-/

namespace CallApiModel

/-- Call state enum (`CallStateType`). -/
inductive CallStateType
  | idle
  | prepared
  | calling
  | connecting
  | connected
deriving DecidableEq, Repr

/-- State reason enum (`CallStateReason`). -/
inductive CallStateReason
  | none
  | localVideoCall
  | localAudioCall
  | remoteVideoCall
  | remoteAudioCall
  | localAccepted
  | remoteAccepted
  | localRejected
  | remoteRejected
  | remoteCallBusy
  | localCancel
  | remoteCancel
  | localHangup
  | remoteHangup
  | recvRemoteFirstFrame
  | callingTimeout
deriving DecidableEq, Repr

/-- Granular event enum (`CallEvent`). -/
inductive CallEvent
  | onCalling
  | remoteUserRecvCall
  | localAccepted
  | remoteAccepted
  | localRejected
  | remoteRejected
  | remoteCallBusy
  | localCancelled
  | remoteCancelled
  | localHangup
  | remoteHangup
  | joinRTCStart
  | joinRTCSuccessed
  | localJoined
  | remoteJoined
  | localLeft
  | remoteLeft
  | publishFirstLocalVideoFrame
  | recvRemoteFirstFrame
  | callingTimeout
  | remoteCallingTimeout
  | stateMismatch
deriving DecidableEq, Repr

/-- Signaling action (`CallAction`). -/
inductive CallAction
  | videoCall
  | audioCall
  | accept
  | reject
  | cancel
  | hangup
deriving DecidableEq, Repr

/-- Origin marker for reject/cancel (`RejectByInternal`). -/
inductive RejectByInternal
  | external
  | internal
deriving DecidableEq, Repr

/-- Call type (`CallType`). -/
inductive CallType
  | video
  | audio
deriving DecidableEq, Repr

/-- Error event (`CallErrorEvent`). -/
inductive CallErrorEvent
  | rtcOccurError
  | sendMessageFail
deriving DecidableEq, Repr

/-- Error kind (`CallErrorCodeType`). -/
inductive CallErrorCodeType
  | normal
  | rtc
  | message
deriving DecidableEq, Repr

/-- The `eventInfo` record attached to some `callStateChanged` emissions. -/
inductive EventInfo
  | noInfo
  | callerInfo (remoteUserId : Nat) (fromUserId : Nat)
  | cancelInfo (cancelCallByInternal : Option RejectByInternal)
  | rejectInfo (rejectReason : Option String)
deriving DecidableEq, Repr

/-- Body of an outbound signaling message (the fields the engine fills in
`ICallMessage` envelopes; absent optional fields are `Option.none`). -/
structure OutMessage where
  fromUserId : Nat
  remoteUserId : Nat
  fromRoomId : Option String
  action : CallAction
  rejectReason : Option String
  rejectByInternal : Option RejectByInternal
  cancelCallByInternal : Option RejectByInternal
deriving DecidableEq, Repr

/-- A decoded inbound signaling message (`ICallMessage` after
`this._callMessage.decode`, with user ids already numeric). -/
structure InMessage where
  callId : String
  fromUserId : Nat
  remoteUserId : Nat
  fromRoomId : Option String
  action : CallAction
  rejectReason : Option String
  rejectByInternal : Option RejectByInternal
  cancelCallByInternal : Option RejectByInternal
deriving DecidableEq, Repr

/-- The mutable state of a `CallApi` instance.  The first block mirrors the
class fields; the second block mirrors `prepareConfig` (only the fields the
engine reads) and the construction-time `callConfig.userId`.  View handles
are abstracted to presence booleans plus an attached flag, `callId` is the
string held by the `CallMessage` codec, and the `_cancelCallTimer` handle is
abstracted to whether a timeout is pending and which variant armed it. -/
structure CallApi where
  state : CallStateType
  remoteUserId : Nat
  callType : CallType
  callId : String
  rtcJoined : Bool
  receiveRemoteFirstFrameDecoded : Bool
  timerPending : Bool
  timerIsLocal : Bool
  localAudioTrack : Bool
  localVideoTrack : Bool
  remoteAudioTrack : Bool
  remoteVideoTrack : Bool
  localViewAttached : Bool
  remoteViewAttached : Bool
  milestones : List String
  userId : Nat
  roomId : Option String
  rtcToken : Bool
  localView : Bool
  remoteView : Bool
  autoAccept : Bool
  callTimeoutMillisecond : Option Nat
  firstFrameWaittingDisabled : Bool
deriving DecidableEq, Repr

/-- A freshly constructed engine (`new CallApi(config)`). -/
def initEngine (userId : Nat) : CallApi where
  state := CallStateType.idle
  remoteUserId := 0
  callType := CallType.video
  callId := ""
  rtcJoined := false
  receiveRemoteFirstFrameDecoded := false
  timerPending := false
  timerIsLocal := false
  localAudioTrack := false
  localVideoTrack := false
  remoteAudioTrack := false
  remoteVideoTrack := false
  localViewAttached := false
  remoteViewAttached := false
  milestones := []
  userId := userId
  roomId := Option.none
  rtcToken := false
  localView := false
  remoteView := false
  autoAccept := false
  callTimeoutMillisecond := Option.none
  firstFrameWaittingDisabled := false

/-- One observable emission of the engine. -/
inductive Obs
  | stateChanged (state : CallStateType) (stateReason : CallStateReason)
      (eventReason : Option String) (eventInfo : EventInfo)
  | eventChanged (event : CallEvent)
  | sendMessage (toUserId : Nat) (callId : String) (message : OutMessage)
  | callError (errorEvent : CallErrorEvent) (errorType : CallErrorCodeType)
  | callInfoChanged (milestones : List String)
  | attachLocalView
  | attachRemoteView
deriving DecidableEq, Repr

/-- Result of running one handler: final engine state, emissions in order
(each with the engine snapshot at emission time), and the escaped
exception message, if the handler threw. -/
structure Run where
  engine : CallApi
  trace : List (CallApi × Obs)
  thrown : Option String
deriving DecidableEq, Repr

/-- `get isBusy` of the source. -/
def isBusy (e : CallApi) : Bool :=
  e.state == CallStateType.calling ||
  e.state == CallStateType.connected ||
  e.state == CallStateType.connecting

/-- `_isCallingUser` of the source. -/
def isCallingUser (userId : Nat) (e : CallApi) : Bool :=
  if e.remoteUserId = 0 then true
  else e.remoteUserId == userId

/-- `getCallId()` of the source.  Modelled from the spec: the `CallMessage`
codec class is not under `src/`; per the spec it holds the current callId
assigned by `setCallId` and returns it, which the `callId` field mirrors. -/
def getCallId (e : CallApi) : String :=
  e.callId

/-- `_callInfo.start()`.  Modelled from the spec: the `CallInfo` class is
not under `src/`; per the spec it is an append-only milestone list reset
at the start of a call (timestamps are not modelled). -/
def callInfoStart (e : CallApi) : CallApi :=
  { e with milestones := ["start"] }

/-- `_callInfo.add(milestone)`.  Modelled from the spec (see
`callInfoStart`). -/
def callInfoAdd (m : String) (e : CallApi) : CallApi :=
  { e with milestones := e.milestones ++ [m] }

/-- `_callInfo.end()`.  Modelled from the spec (see `callInfoStart`). -/
def callInfoEnd (e : CallApi) : CallApi :=
  { e with milestones := e.milestones ++ ["end"] }

/-- `_callStateChange`: suppresses self-transitions, otherwise writes the
state and emits `callStateChanged` (the snapshot is taken after the
write, as in the source). -/
def callStateChange (state : CallStateType) (stateReason : CallStateReason)
    (eventReason : Option String) (eventInfo : EventInfo) (e : CallApi) :
    CallApi × List (CallApi × Obs) :=
  if e.state = state then (e, [])
  else
    let e2 := { e with state := state }
    (e2, [(e2, Obs.stateChanged state stateReason eventReason eventInfo)])

/-- `_callEventChange`: emits `callEventChanged` unconditionally. -/
def callEventChange (event : CallEvent) (e : CallApi) :
    CallApi × List (CallApi × Obs) :=
  (e, [(e, Obs.eventChanged event)])

/-- `_publishMessage`: encodes (stamping the current callId) and sends. -/
def publishMessage (uid : Nat) (m : OutMessage) (e : CallApi) :
    CallApi × List (CallApi × Obs) :=
  (e, [(e, Obs.sendMessage uid e.callId m)])

/-- `_resetView`: clears both view containers. -/
def resetView (e : CallApi) : CallApi :=
  { e with localViewAttached := false, remoteViewAttached := false }

/-- `_resetData`: clears callId, peer, tracks, join/frame latches and the
view containers, disarms the timer, and closes the call-info record. -/
def resetData (e : CallApi) : CallApi :=
  callInfoEnd (resetView
    { e with callId := "", remoteUserId := 0,
             localAudioTrack := false, localVideoTrack := false,
             remoteAudioTrack := false, remoteVideoTrack := false,
             rtcJoined := false, receiveRemoteFirstFrameDecoded := false,
             timerPending := false })

/-- `destory()` (sic): stops/closes tracks, leaves the channel when joined
(emitting `localLeft` after the leave), then resets all per-call data. -/
def destory (e : CallApi) : Run :=
  if e.rtcJoined then
    let (e2, t2) := callEventChange CallEvent.localLeft e
    ⟨resetData e2, t2, Option.none⟩
  else
    ⟨resetData e, [], Option.none⟩

/-- `_checkAppendView()`: the view-attach rendezvous.  No-op unless the
state is `connecting`; proceeds only when `firstFrameWaittingDisabled`
is set or the remote first frame has been decoded; then latches
`connected` with reason `recvRemoteFirstFrame` and attaches the local
and remote views, throwing when a view container is missing. -/
def checkAppendView (e : CallApi) : Run :=
  if e.state ≠ CallStateType.connecting then ⟨e, [], Option.none⟩
  else if e.firstFrameWaittingDisabled || e.receiveRemoteFirstFrameDecoded then
    let (e1, t1) := callStateChange CallStateType.connected
      CallStateReason.recvRemoteFirstFrame Option.none EventInfo.noInfo e
    if e.localView then
      let e2 := { e1 with localViewAttached := true }
      let t2 := [(e2, Obs.attachLocalView)]
      if e.remoteView then
        let e3 := { e2 with remoteViewAttached := true }
        let t3 := [(e3, Obs.attachRemoteView)]
        ⟨e3, t1 ++ t2 ++ t3, Option.none⟩
      else
        ⟨e2, t1 ++ t2, Option.some "remoteView is undefined"⟩
    else
      ⟨e1, t1, Option.some "localView is undefined"⟩
  else ⟨e, [], Option.none⟩

/-- `_createLocalTracks`: creates microphone and camera tracks. -/
def createLocalTracks (e : CallApi) : CallApi :=
  { e with localAudioTrack := true, localVideoTrack := true }

/-- `_rtcJoin`: early-returns when already joined, validates config, then
joins and emits the join events and milestone. -/
def rtcJoin (e : CallApi) : Run :=
  if e.rtcJoined then ⟨e, [], Option.none⟩
  else
    match e.roomId with
    | Option.none => ⟨e, [], Option.some "roomId is undefined"⟩
    | Option.some _ =>
      if !e.rtcToken then ⟨e, [], Option.some "rtcToken is undefined"⟩
      else
        let (e1, t1) := callEventChange CallEvent.joinRTCStart e
        let e2 := { e1 with rtcJoined := true }
        let (e3, t3) := callEventChange CallEvent.joinRTCSuccessed e2
        let (e4, t4) := callEventChange CallEvent.localJoined e3
        ⟨callInfoAdd "localUserJoinChannel" e4, t1 ++ t3 ++ t4, Option.none⟩

/-- `_rtcPublish`: publishes both local tracks or throws. -/
def rtcPublish (e : CallApi) : Run :=
  if e.localVideoTrack && e.localAudioTrack then
    let (e1, t1) := callEventChange CallEvent.publishFirstLocalVideoFrame e
    ⟨e1, t1, Option.none⟩
  else
    ⟨e, [], Option.some "videoTrack or audioTrack is undefined"⟩

/-- `_rtcJoinAndPublish`: create tracks and join (concurrently in the
source, sequenced here), play local video, then publish; a failure emits
`callError(rtcOccurError, rtc)` and is rethrown. -/
def rtcJoinAndPublish (e : CallApi) : Run :=
  let e1 := createLocalTracks e
  let r2 := rtcJoin e1
  match r2.thrown with
  | Option.some msg =>
    ⟨r2.engine,
     r2.trace ++ [(r2.engine, Obs.callError CallErrorEvent.rtcOccurError CallErrorCodeType.rtc)],
     Option.some msg⟩
  | Option.none =>
    let r3 := rtcPublish r2.engine
    match r3.thrown with
    | Option.some msg =>
      ⟨r3.engine,
       r2.trace ++ r3.trace ++ [(r3.engine, Obs.callError CallErrorEvent.rtcOccurError CallErrorCodeType.rtc)],
       Option.some msg⟩
    | Option.none => ⟨r3.engine, r2.trace ++ r3.trace, Option.none⟩

/-- `_autoCancelCall(isLocal)`: arms (or re-arms) the timeout timer when a
peer is committed and `callTimeoutMillisecond` is truthy. -/
def autoCancelCall (isLocal : Bool) (e : CallApi) : CallApi :=
  if e.remoteUserId = 0 then e
  else
    match e.callTimeoutMillisecond with
    | Option.none => e
    | Option.some t =>
      if t = 0 then e
      else { e with timerPending := true, timerIsLocal := isLocal }

/-- `_autoReject`: sends a busy Reject marked Internal to the interloper. -/
def autoReject (remoteUserId : Nat) (e : CallApi) : Run :=
  let (e1, t1) := publishMessage remoteUserId
    { fromUserId := e.userId, remoteUserId := remoteUserId,
      fromRoomId := Option.none, action := CallAction.reject,
      rejectReason := Option.some "busy",
      rejectByInternal := Option.some RejectByInternal.internal,
      cancelCallByInternal := Option.none } e
  ⟨e1, t1, Option.none⟩

/-- A partial `IPrepareConfig` as accepted by `prepareForCall`; a field is
`Option.some v` when the caller supplies it, `Option.none` to keep the
existing value (spread-merge semantics). -/
structure PrepPatch where
  roomId : Option (Option String)
  rtcToken : Option Bool
  localView : Option Bool
  remoteView : Option Bool
  autoAccept : Option Bool
  callTimeoutMillisecond : Option (Option Nat)
  firstFrameWaittingDisabled : Option Bool
deriving DecidableEq, Repr

/-- The spread merge `{...this.prepareConfig, ...prepareConfig}`. -/
def mergeConfig (p : PrepPatch) (e : CallApi) : CallApi :=
  { e with
    roomId := p.roomId.getD e.roomId,
    rtcToken := p.rtcToken.getD e.rtcToken,
    localView := p.localView.getD e.localView,
    remoteView := p.remoteView.getD e.remoteView,
    autoAccept := p.autoAccept.getD e.autoAccept,
    callTimeoutMillisecond := p.callTimeoutMillisecond.getD e.callTimeoutMillisecond,
    firstFrameWaittingDisabled :=
      p.firstFrameWaittingDisabled.getD e.firstFrameWaittingDisabled }

/-- `prepareForCall(prepareConfig)`: rejected while busy, otherwise merges
the config and settles in `prepared` with reason `none`. -/
def prepareForCall (p : PrepPatch) (e : CallApi) : Run :=
  if isBusy e then
    let (e1, t1) := callEventChange CallEvent.stateMismatch e
    ⟨e1, t1, Option.some "currently busy!"⟩
  else
    let e1 := mergeConfig p e
    let (e2, t2) := callStateChange CallStateType.prepared CallStateReason.none
      Option.none EventInfo.noInfo e1
    ⟨e2, t2, Option.none⟩

/-- `call(remoteUserId, callType)`: the outbound-invite command.
`freshCallId` stands for the `uuidv4()` value generated at the call site. -/
def call (remoteUserId : Nat) (callType : CallType) (freshCallId : String)
    (e : CallApi) : Run :=
  if e.state ≠ CallStateType.prepared then
    let (e1, t1) := callEventChange CallEvent.stateMismatch e
    ⟨e1, t1, Option.some "call failed! current state is not prepared state"⟩
  else
    let e1 := callInfoStart e
    let e2 := { e1 with remoteUserId := remoteUserId, callType := callType }
    let callStateReason :=
      if callType = CallType.video then CallStateReason.localVideoCall
      else CallStateReason.localAudioCall
    let (e3, t3) := callStateChange CallStateType.calling callStateReason
      (Option.some "") (EventInfo.callerInfo remoteUserId e.userId) e2
    let (e4, t4) := callEventChange CallEvent.onCalling e3
    let e5 := { e4 with callId := freshCallId }
    let callAction :=
      if callType = CallType.video then CallAction.videoCall
      else CallAction.audioCall
    let e6 := autoCancelCall true e5
    let r7 := rtcJoinAndPublish e6
    let (e8, t8) := publishMessage remoteUserId
      { fromUserId := e.userId, remoteUserId := remoteUserId,
        fromRoomId := e.roomId, action := callAction,
        rejectReason := Option.none, rejectByInternal := Option.none,
        cancelCallByInternal := Option.none } r7.engine
    let e9 := callInfoAdd "remoteUserRecvCall" e8
    let (e10, t10) := callEventChange CallEvent.remoteUserRecvCall e9
    ⟨e10, t3 ++ t4 ++ r7.trace ++ t8 ++ t10, Option.none⟩

/-- `cancelCall()`: no precondition; state to `prepared` with
`localCancel`, event `localCancelled`, then Cancel(External) and teardown. -/
def cancelCall (e : CallApi) : Run :=
  let (e1, t1) := callStateChange CallStateType.prepared
    CallStateReason.localCancel Option.none EventInfo.noInfo e
  let (e2, t2) := callEventChange CallEvent.localCancelled e1
  let (e3, t3) := publishMessage e2.remoteUserId
    { fromUserId := e2.userId, remoteUserId := e2.remoteUserId,
      fromRoomId := Option.none, action := CallAction.cancel,
      rejectReason := Option.none, rejectByInternal := Option.none,
      cancelCallByInternal := Option.some RejectByInternal.external } e2
  let r4 := destory e3
  ⟨r4.engine, t1 ++ t2 ++ t3 ++ r4.trace, r4.thrown⟩

/-- `reject(remoteUserId, reason)`: no precondition; state to `prepared`
with `localRejected`, event `localRejected`, Reject(External), teardown. -/
def reject (remoteUserId : Nat) (reason : Option String) (e : CallApi) : Run :=
  let (e1, t1) := callStateChange CallStateType.prepared
    CallStateReason.localRejected reason EventInfo.noInfo e
  let (e2, t2) := callEventChange CallEvent.localRejected e1
  let (e3, t3) := publishMessage remoteUserId
    { fromUserId := e2.userId, remoteUserId := remoteUserId,
      fromRoomId := Option.none, action := CallAction.reject,
      rejectReason := reason,
      rejectByInternal := Option.some RejectByInternal.external,
      cancelCallByInternal := Option.none } e2
  let r4 := destory e3
  ⟨r4.engine, t1 ++ t2 ++ t3 ++ r4.trace, r4.thrown⟩

/-- `accept(remoteUserId)`: only legal in `calling`; event
`localAccepted`, milestone, state to `connecting`, then (concurrently in
the source) the Accept send and the view-attach check. -/
def accept (remoteUserId : Nat) (e : CallApi) : Run :=
  if e.state ≠ CallStateType.calling then
    let (e1, t1) := callEventChange CallEvent.stateMismatch e
    ⟨e1, t1, Option.some "accept fail! current state is not calling state"⟩
  else
    let (e1, t1) := callEventChange CallEvent.localAccepted e
    let e2 := callInfoAdd "acceptCall" e1
    let (e3, t3) := callStateChange CallStateType.connecting
      CallStateReason.localAccepted Option.none EventInfo.noInfo e2
    let (e4, t4) := publishMessage remoteUserId
      { fromUserId := e3.userId, remoteUserId := remoteUserId,
        fromRoomId := Option.none, action := CallAction.accept,
        rejectReason := Option.none, rejectByInternal := Option.none,
        cancelCallByInternal := Option.none } e3
    let r5 := checkAppendView e4
    ⟨r5.engine, t1 ++ t3 ++ t4 ++ r5.trace, r5.thrown⟩

/-- `hangup(remoteUserId)`: no precondition; state to `prepared` with
`localHangup`, event `localHangup`, Hangup send, teardown. -/
def hangup (remoteUserId : Nat) (e : CallApi) : Run :=
  let (e1, t1) := callStateChange CallStateType.prepared
    CallStateReason.localHangup Option.none EventInfo.noInfo e
  let (e2, t2) := callEventChange CallEvent.localHangup e1
  let (e3, t3) := publishMessage remoteUserId
    { fromUserId := e2.userId, remoteUserId := remoteUserId,
      fromRoomId := Option.none, action := CallAction.hangup,
      rejectReason := Option.none, rejectByInternal := Option.none,
      cancelCallByInternal := Option.none } e2
  let r4 := destory e3
  ⟨r4.engine, t1 ++ t2 ++ t3 ++ r4.trace, r4.thrown⟩

/-- `_receiveVideoCall`: inbound invite.  Interlopers are auto-rejected;
otherwise the engine adopts the caller's callId, commits to the peer,
arms the remote-variant timer, enters `calling`, joins/publishes media,
and finally auto-accepts when configured to. -/
def receiveVideoCall (m : InMessage) (e : CallApi) : Run :=
  if !(isCallingUser m.fromUserId e) then autoReject m.fromUserId e
  else
    let e1 := callInfoStart e
    let e2 := { e1 with callId := m.callId, remoteUserId := m.fromUserId,
                        roomId := m.fromRoomId }
    let e3 := autoCancelCall false e2
    let (e4, t4) := callStateChange CallStateType.calling
      CallStateReason.remoteVideoCall (Option.some "")
      (EventInfo.callerInfo m.remoteUserId m.fromUserId) e3
    let (e5, t5) := callEventChange CallEvent.onCalling e4
    let r6 := rtcJoinAndPublish e5
    match r6.thrown with
    | Option.some msg => ⟨r6.engine, t4 ++ t5 ++ r6.trace, Option.some msg⟩
    | Option.none =>
      if r6.engine.autoAccept then
        let r7 := accept r6.engine.remoteUserId r6.engine
        ⟨r7.engine, t4 ++ t5 ++ r6.trace ++ r7.trace, r7.thrown⟩
      else ⟨r6.engine, t4 ++ t5 ++ r6.trace, Option.none⟩

/-- `_receiveAccept`: no gate; milestone, event `remoteAccepted`, state to
`connecting` with `remoteAccepted`, then the view-attach check. -/
def receiveAccept (_m : InMessage) (e : CallApi) : Run :=
  let e1 := callInfoAdd "acceptCall" e
  let (e2, t2) := callEventChange CallEvent.remoteAccepted e1
  let (e3, t3) := callStateChange CallStateType.connecting
    CallStateReason.remoteAccepted Option.none EventInfo.noInfo e2
  let r4 := checkAppendView e3
  ⟨r4.engine, t2 ++ t3 ++ r4.trace, r4.thrown⟩

/-- `_receiveReject`: gated by `_isCallingUser`; maps Internal to
`remoteCallBusy` (with its extra event), tears down, then emits the
`prepared` state change carrying the reject reason, then `remoteRejected`. -/
def receiveReject (m : InMessage) (e : CallApi) : Run :=
  if !(isCallingUser m.fromUserId e) then ⟨e, [], Option.none⟩
  else
    let stateReason :=
      if m.rejectByInternal = Option.some RejectByInternal.internal then
        CallStateReason.remoteCallBusy
      else CallStateReason.remoteRejected
    let (e1, t1) :=
      if stateReason = CallStateReason.remoteCallBusy then
        callEventChange CallEvent.remoteCallBusy e
      else (e, [])
    let r2 := destory e1
    let (e3, t3) := callStateChange CallStateType.prepared stateReason
      (Option.some "") (EventInfo.rejectInfo m.rejectReason) r2.engine
    let (e4, t4) := callEventChange CallEvent.remoteRejected e3
    ⟨e4, t1 ++ r2.trace ++ t3 ++ t4, r2.thrown⟩

/-- `_receiveCancelCall`: gated by `_isCallingUser`; state to `prepared`
with `remoteCancel` carrying `cancelCallByInternal`, event
`remoteCancelled`, then teardown. -/
def receiveCancelCall (m : InMessage) (e : CallApi) : Run :=
  if !(isCallingUser m.fromUserId e) then ⟨e, [], Option.none⟩
  else
    let (e1, t1) := callStateChange CallStateType.prepared
      CallStateReason.remoteCancel (Option.some "")
      (EventInfo.cancelInfo m.cancelCallByInternal) e
    let (e2, t2) := callEventChange CallEvent.remoteCancelled e1
    let r3 := destory e2
    ⟨r3.engine, t1 ++ t2 ++ r3.trace, r3.thrown⟩

/-- `_receiveHangup`: gated by `_isCallingUser`; state to `prepared` with
`remoteHangup`, event `remoteHangup`, then teardown. -/
def receiveHangup (m : InMessage) (e : CallApi) : Run :=
  if !(isCallingUser m.fromUserId e) then ⟨e, [], Option.none⟩
  else
    let (e1, t1) := callStateChange CallStateType.prepared
      CallStateReason.remoteHangup Option.none EventInfo.noInfo e
    let (e2, t2) := callEventChange CallEvent.remoteHangup e1
    let r3 := destory e2
    ⟨r3.engine, t1 ++ t2 ++ r3.trace, r3.thrown⟩

/-- The `messageReceive` listener: decode and dispatch on `message_action`
(`AudioCall` is a TODO in the source and does nothing). -/
def onMessageReceive (m : InMessage) (e : CallApi) : Run :=
  match m.action with
  | CallAction.videoCall => receiveVideoCall m e
  | CallAction.audioCall => ⟨e, [], Option.none⟩
  | CallAction.cancel => receiveCancelCall m e
  | CallAction.accept => receiveAccept m e
  | CallAction.reject => receiveReject m e
  | CallAction.hangup => receiveHangup m e

/-- The armed timeout firing (`_autoCancelCall`'s `setTimeout` body): once
the deadline elapses the timeout is no longer pending; in `calling` or
`connecting` it forces `prepared` with `callingTimeout`, emits the
variant-dependent event, sends Cancel(Internal) and tears down. -/
def cancelCallTimerFire (e : CallApi) : Run :=
  let e0 := { e with timerPending := false }
  if e0.state = CallStateType.calling ∨ e0.state = CallStateType.connecting then
    let (e1, t1) := callStateChange CallStateType.prepared
      CallStateReason.callingTimeout Option.none EventInfo.noInfo e0
    let (e2, t2) := callEventChange
      (if e.timerIsLocal then CallEvent.callingTimeout
       else CallEvent.remoteCallingTimeout) e1
    let (e3, t3) := publishMessage e2.remoteUserId
      { fromUserId := e2.userId, remoteUserId := e2.remoteUserId,
        fromRoomId := Option.none, action := CallAction.cancel,
        rejectReason := Option.none, rejectByInternal := Option.none,
        cancelCallByInternal := Option.some RejectByInternal.internal } e2
    let r4 := destory e3
    ⟨r4.engine, t1 ++ t2 ++ t3 ++ r4.trace, r4.thrown⟩
  else ⟨e0, [], Option.none⟩

/-- rtc `user-joined` handler. -/
def onUserJoined (uid : Nat) (e : CallApi) : Run :=
  if uid ≠ e.remoteUserId then ⟨e, [], Option.none⟩
  else
    let e1 := callInfoAdd "remoteUserJoinChannel" e
    let (e2, t2) := callEventChange CallEvent.remoteJoined e1
    ⟨e2, t2, Option.none⟩

/-- rtc `user-left` handler: a silent peer departure while busy is treated
as a remote hangup (teardown first, then the state change). -/
def onUserLeft (uid : Nat) (e : CallApi) : Run :=
  if uid ≠ e.remoteUserId then ⟨e, [], Option.none⟩
  else
    let (e1, t1) := callEventChange CallEvent.remoteLeft e
    if isBusy e1 then
      let r2 := destory e1
      let (e3, t3) := callStateChange CallStateType.prepared
        CallStateReason.remoteHangup Option.none EventInfo.noInfo r2.engine
      ⟨e3, t1 ++ r2.trace ++ t3, r2.thrown⟩
    else ⟨e1, t1, Option.none⟩

/-- rtc `user-published` handler, video branch: subscribe, store the
track, register the first-frame observer, try playback. -/
def onUserPublishedVideo (uid : Nat) (e : CallApi) : Run :=
  if uid ≠ e.remoteUserId then ⟨e, [], Option.none⟩
  else ⟨{ e with remoteVideoTrack := true }, [], Option.none⟩

/-- rtc `user-published` handler, audio branch: subscribe, store the
track; when already `connected` playback starts immediately (no
observable emission is modelled for playback). -/
def onUserPublishedAudio (uid : Nat) (e : CallApi) : Run :=
  if uid ≠ e.remoteUserId then ⟨e, [], Option.none⟩
  else ⟨{ e with remoteAudioTrack := true }, [], Option.none⟩

/-- rtc `user-unpublished` handler, video branch. -/
def onUserUnpublishedVideo (uid : Nat) (e : CallApi) : Run :=
  if uid ≠ e.remoteUserId then ⟨e, [], Option.none⟩
  else ⟨{ e with remoteVideoTrack := false }, [], Option.none⟩

/-- rtc `user-unpublished` handler, audio branch. -/
def onUserUnpublishedAudio (uid : Nat) (e : CallApi) : Run :=
  if uid ≠ e.remoteUserId then ⟨e, [], Option.none⟩
  else ⟨{ e with remoteAudioTrack := false }, [], Option.none⟩

/-- `_handleRemoteFirstFrameDecoded`: event, latch the decoded flag,
milestone, emit the call-info snapshot, then the view-attach check. -/
def handleRemoteFirstFrameDecoded (e : CallApi) : Run :=
  let (e1, t1) := callEventChange CallEvent.recvRemoteFirstFrame e
  let e2 := { e1 with receiveRemoteFirstFrameDecoded := true }
  let e3 := callInfoAdd "recvFirstFrame" e2
  let t3 := [(e3, Obs.callInfoChanged e3.milestones)]
  let r4 := checkAppendView e3
  ⟨r4.engine, t1 ++ t3 ++ r4.trace, r4.thrown⟩

/-- One atomic run-to-completion step of the engine: an application
command, an inbound decoded signaling message, the timer firing, or a
media-plane event. -/
inductive Step
  | prepare (p : PrepPatch)
  | callCmd (remoteUserId : Nat) (callType : CallType) (freshCallId : String)
  | cancelCmd
  | acceptCmd (remoteUserId : Nat)
  | rejectCmd (remoteUserId : Nat) (reason : Option String)
  | hangupCmd (remoteUserId : Nat)
  | destroyCmd
  | message (m : InMessage)
  | timerFired
  | rtcUserJoined (uid : Nat)
  | rtcUserLeft (uid : Nat)
  | rtcUserPublishedVideo (uid : Nat)
  | rtcUserPublishedAudio (uid : Nat)
  | rtcUserUnpublishedVideo (uid : Nat)
  | rtcUserUnpublishedAudio (uid : Nat)
  | firstFrameDecoded

/-- Semantics of one step.  A `timerFired` step only does something when a
timeout is actually pending. -/
def applyStep : Step → CallApi → Run
  | Step.prepare p, e => prepareForCall p e
  | Step.callCmd u ct id, e => call u ct id e
  | Step.cancelCmd, e => cancelCall e
  | Step.acceptCmd u, e => accept u e
  | Step.rejectCmd u r, e => reject u r e
  | Step.hangupCmd u, e => hangup u e
  | Step.destroyCmd, e => destory e
  | Step.message m, e => onMessageReceive m e
  | Step.timerFired, e =>
      if e.timerPending then cancelCallTimerFire e else ⟨e, [], Option.none⟩
  | Step.rtcUserJoined u, e => onUserJoined u e
  | Step.rtcUserLeft u, e => onUserLeft u e
  | Step.rtcUserPublishedVideo u, e => onUserPublishedVideo u e
  | Step.rtcUserPublishedAudio u, e => onUserPublishedAudio u e
  | Step.rtcUserUnpublishedVideo u, e => onUserUnpublishedVideo u e
  | Step.rtcUserUnpublishedAudio u, e => onUserUnpublishedAudio u e
  | Step.firstFrameDecoded, e => handleRemoteFirstFrameDecoded e

/-- Engine states reachable from a freshly constructed engine by atomic
run-to-completion steps. -/
inductive Reach : CallApi → Prop
  | init (userId : Nat) : Reach (initEngine userId)
  | step (e : CallApi) (s : Step) : Reach e → Reach (applyStep s e).engine

/-! ## Basic facts about the helper operations -/

theorem resetData_state (e : CallApi) : (resetData e).state = e.state := rfl

theorem resetData_callId (e : CallApi) : (resetData e).callId = "" := rfl

theorem resetData_timer (e : CallApi) : (resetData e).timerPending = false := rfl

theorem destory_engine (e : CallApi) : (destory e).engine = resetData e := by
  unfold destory callEventChange
  split <;> rfl

theorem destory_trace (e : CallApi) :
    (destory e).trace =
      if e.rtcJoined then [(e, Obs.eventChanged CallEvent.localLeft)] else [] := by
  unfold destory callEventChange
  split <;> simp_all

theorem destory_thrown (e : CallApi) : (destory e).thrown = Option.none := by
  unfold destory callEventChange
  split <;> rfl

/-- Fields preserved by `_rtcJoinAndPublish` (it only touches the tracks,
the join latch and the milestones). -/
theorem rtcJoinAndPublish_core (e : CallApi) :
    (rtcJoinAndPublish e).engine.state = e.state ∧
    (rtcJoinAndPublish e).engine.callId = e.callId ∧
    (rtcJoinAndPublish e).engine.remoteUserId = e.remoteUserId ∧
    (rtcJoinAndPublish e).engine.timerPending = e.timerPending ∧
    (rtcJoinAndPublish e).engine.autoAccept = e.autoAccept := by
  unfold rtcJoinAndPublish rtcJoin rtcPublish createLocalTracks callEventChange callInfoAdd
  rcases hr : e.roomId with _ | r <;> by_cases hj : e.rtcJoined <;>
    by_cases ht : e.rtcToken <;> simp [hr, hj, ht]

/-- `_checkAppendView` only ever moves `connecting` to `connected`, and
touches no field other than `state` and the two attach flags. -/
theorem checkAppendView_core (e : CallApi) :
    (checkAppendView e).engine.callId = e.callId ∧
    (checkAppendView e).engine.remoteUserId = e.remoteUserId ∧
    (checkAppendView e).engine.timerPending = e.timerPending ∧
    ((checkAppendView e).engine.state = e.state ∨
      (e.state = CallStateType.connecting ∧
       (checkAppendView e).engine.state = CallStateType.connected)) := by
  by_cases h1 : e.state = CallStateType.connecting
  · by_cases h2 : (e.firstFrameWaittingDisabled || e.receiveRemoteFirstFrameDecoded) = true
    · by_cases h3 : e.localView <;> by_cases h4 : e.remoteView <;>
        simp [checkAppendView, callStateChange, h1, h2, h3, h4]
    · simp [checkAppendView, callStateChange, h1, h2]
  · simp [checkAppendView, h1]

/-! ## Trace discipline for the view-attach rendezvous

`ObsOk` states, for one emission: a `callStateChanged` that announces
`connected` carries reason `recvRemoteFirstFrame` (the transition latched
by `_checkAppendView`, the only writer of `connected`), and a view
attachment only ever happens while the engine state is `connected`. -/

def obsOk : CallApi × Obs → Bool
  | (_, Obs.stateChanged st r _ _) =>
      st != CallStateType.connected || r == CallStateReason.recvRemoteFirstFrame
  | (sn, Obs.attachLocalView) => sn.state == CallStateType.connected
  | (sn, Obs.attachRemoteView) => sn.state == CallStateType.connected
  | _ => true

/-- All emissions of a trace satisfy `obsOk`. -/
def TraceOk (t : List (CallApi × Obs)) : Prop := t.all obsOk = true

theorem traceOk_mem {t : List (CallApi × Obs)} (h : TraceOk t) :
    ∀ p ∈ t, obsOk p = true := by
  simpa [TraceOk] using h

theorem traceOk_destory (e : CallApi) : TraceOk (destory e).trace := by
  rw [destory_trace]
  split <;> simp [TraceOk, obsOk]

theorem traceOk_rtcJoinAndPublish (e : CallApi) :
    TraceOk (rtcJoinAndPublish e).trace := by
  unfold rtcJoinAndPublish rtcJoin rtcPublish createLocalTracks callEventChange callInfoAdd
  rcases hr : e.roomId with _ | r <;> by_cases hj : e.rtcJoined <;>
    by_cases ht : e.rtcToken <;> simp [hr, hj, ht, TraceOk, obsOk]

theorem traceOk_checkAppendView (e : CallApi) :
    TraceOk (checkAppendView e).trace := by
  by_cases h1 : e.state = CallStateType.connecting
  · by_cases h2 : (e.firstFrameWaittingDisabled || e.receiveRemoteFirstFrameDecoded) = true
    · by_cases h3 : e.localView <;> by_cases h4 : e.remoteView <;>
        simp [checkAppendView, callStateChange, h1, h2, h3, h4, TraceOk, obsOk]
    · simp [checkAppendView, callStateChange, h1, h2, TraceOk]
  · simp [checkAppendView, h1, TraceOk]

theorem traceOk_prepareForCall (p : PrepPatch) (e : CallApi) :
    TraceOk (prepareForCall p e).trace := by
  by_cases hb : isBusy e
  · simp [prepareForCall, hb, callEventChange, TraceOk, obsOk]
  · by_cases hs : e.state = CallStateType.prepared <;>
      simp [prepareForCall, hb, hs, callStateChange, callEventChange, mergeConfig,
        TraceOk, obsOk]

theorem traceOk_call (u : Nat) (ct : CallType) (id : String) (e : CallApi) :
    TraceOk (call u ct id e).trace := by
  by_cases hs : e.state = CallStateType.prepared
  · by_cases hv : ct = CallType.video <;>
      simp [call, hs, hv, callInfoStart, callStateChange, callEventChange,
        publishMessage, callInfoAdd, TraceOk, obsOk] <;>
      exact fun a b hab => traceOk_mem (traceOk_rtcJoinAndPublish _) (a, b) hab
  · simp [call, hs, callEventChange, TraceOk, obsOk]

theorem traceOk_cancelCall (e : CallApi) : TraceOk (cancelCall e).trace := by
  by_cases hs : e.state = CallStateType.prepared <;>
    simp [cancelCall, hs, callStateChange, callEventChange, publishMessage,
      TraceOk, obsOk] <;>
    exact fun a b hab => traceOk_mem (traceOk_destory _) (a, b) hab

theorem traceOk_reject (u : Nat) (r : Option String) (e : CallApi) :
    TraceOk (reject u r e).trace := by
  by_cases hs : e.state = CallStateType.prepared <;>
    simp [reject, hs, callStateChange, callEventChange, publishMessage,
      TraceOk, obsOk] <;>
    exact fun a b hab => traceOk_mem (traceOk_destory _) (a, b) hab

theorem traceOk_hangup (u : Nat) (e : CallApi) : TraceOk (hangup u e).trace := by
  by_cases hs : e.state = CallStateType.prepared <;>
    simp [hangup, hs, callStateChange, callEventChange, publishMessage,
      TraceOk, obsOk] <;>
    exact fun a b hab => traceOk_mem (traceOk_destory _) (a, b) hab

theorem traceOk_accept (u : Nat) (e : CallApi) : TraceOk (accept u e).trace := by
  by_cases hs : e.state = CallStateType.calling
  · simp [accept, hs, callInfoAdd, callStateChange, callEventChange,
      publishMessage, TraceOk, obsOk]
    exact fun a b hab => traceOk_mem (traceOk_checkAppendView _) (a, b) hab
  · simp [accept, hs, callEventChange, TraceOk, obsOk]

theorem traceOk_autoReject (u : Nat) (e : CallApi) :
    TraceOk (autoReject u e).trace := by
  simp [autoReject, publishMessage, TraceOk, obsOk]

theorem TraceOk.append {a b : List (CallApi × Obs)} (ha : TraceOk a)
    (hb : TraceOk b) : TraceOk (a ++ b) := by
  simp only [TraceOk, List.all_append, Bool.and_eq_true] at *
  exact ⟨ha, hb⟩

theorem traceOk_callStateChange_snd (st : CallStateType) (r : CallStateReason)
    (er : Option String) (i : EventInfo) (e : CallApi)
    (h : (st != CallStateType.connected ||
          r == CallStateReason.recvRemoteFirstFrame) = true) :
    TraceOk (callStateChange st r er i e).2 := by
  unfold callStateChange
  split <;> simp [TraceOk, obsOk, h]

theorem traceOk_callEventChange_snd (ev : CallEvent) (e : CallApi) :
    TraceOk (callEventChange ev e).2 := by
  simp [callEventChange, TraceOk, obsOk]

theorem traceOk_receiveVideoCall (m : InMessage) (e : CallApi) :
    TraceOk (receiveVideoCall m e).trace := by
  unfold receiveVideoCall
  split
  · exact traceOk_autoReject _ _
  · simp only [callInfoStart]
    split
    · dsimp only
      apply TraceOk.append
      · apply TraceOk.append
        · exact traceOk_callStateChange_snd CallStateType.calling
            CallStateReason.remoteVideoCall _ _ _ rfl
        · exact traceOk_callEventChange_snd _ _
      · exact traceOk_rtcJoinAndPublish _
    · split
      · dsimp only
        apply TraceOk.append
        · apply TraceOk.append
          · apply TraceOk.append
            · exact traceOk_callStateChange_snd CallStateType.calling
                CallStateReason.remoteVideoCall _ _ _ rfl
            · exact traceOk_callEventChange_snd _ _
          · exact traceOk_rtcJoinAndPublish _
        · exact traceOk_accept _ _
      · dsimp only
        apply TraceOk.append
        · apply TraceOk.append
          · exact traceOk_callStateChange_snd CallStateType.calling
              CallStateReason.remoteVideoCall _ _ _ rfl
          · exact traceOk_callEventChange_snd _ _
        · exact traceOk_rtcJoinAndPublish _

theorem traceOk_receiveAccept (m : InMessage) (e : CallApi) :
    TraceOk (receiveAccept m e).trace := by
  by_cases hs : e.state = CallStateType.connecting <;>
    simp [receiveAccept, hs, callInfoAdd, callStateChange, callEventChange,
      TraceOk, obsOk] <;>
    exact fun a b hab => traceOk_mem (traceOk_checkAppendView _) (a, b) hab

theorem traceOk_receiveReject (m : InMessage) (e : CallApi) :
    TraceOk (receiveReject m e).trace := by
  by_cases hg : isCallingUser m.fromUserId e
  · by_cases hint : m.rejectByInternal = Option.some RejectByInternal.internal <;>
      by_cases hs : (destory e).engine.state = CallStateType.prepared <;>
      simp [receiveReject, hg, hint, hs, callStateChange, callEventChange,
        TraceOk, obsOk] <;>
      exact fun a b hab => traceOk_mem (traceOk_destory _) (a, b) hab
  · have hg2 : isCallingUser m.fromUserId e = false := by simpa using hg
    simp [receiveReject, hg2, TraceOk]

theorem traceOk_receiveCancelCall (m : InMessage) (e : CallApi) :
    TraceOk (receiveCancelCall m e).trace := by
  by_cases hg : isCallingUser m.fromUserId e
  · by_cases hs : e.state = CallStateType.prepared <;>
      simp [receiveCancelCall, hg, hs, callStateChange, callEventChange,
        TraceOk, obsOk] <;>
      exact fun a b hab => traceOk_mem (traceOk_destory _) (a, b) hab
  · have hg2 : isCallingUser m.fromUserId e = false := by simpa using hg
    simp [receiveCancelCall, hg2, TraceOk]

theorem traceOk_receiveHangup (m : InMessage) (e : CallApi) :
    TraceOk (receiveHangup m e).trace := by
  by_cases hg : isCallingUser m.fromUserId e
  · by_cases hs : e.state = CallStateType.prepared <;>
      simp [receiveHangup, hg, hs, callStateChange, callEventChange,
        TraceOk, obsOk] <;>
      exact fun a b hab => traceOk_mem (traceOk_destory _) (a, b) hab
  · have hg2 : isCallingUser m.fromUserId e = false := by simpa using hg
    simp [receiveHangup, hg2, TraceOk]

theorem traceOk_onMessageReceive (m : InMessage) (e : CallApi) :
    TraceOk (onMessageReceive m e).trace := by
  unfold onMessageReceive
  cases m.action
  · exact traceOk_receiveVideoCall m e
  · simp [TraceOk]
  · exact traceOk_receiveAccept m e
  · exact traceOk_receiveReject m e
  · exact traceOk_receiveCancelCall m e
  · exact traceOk_receiveHangup m e

theorem traceOk_cancelCallTimerFire (e : CallApi) :
    TraceOk (cancelCallTimerFire e).trace := by
  by_cases hs : ({ e with timerPending := false } : CallApi).state =
      CallStateType.calling ∨
      ({ e with timerPending := false } : CallApi).state = CallStateType.connecting
  · have hne : ({ e with timerPending := false } : CallApi).state ≠
        CallStateType.prepared := by
      rcases hs with h | h <;> simp_all
    simp [cancelCallTimerFire, hs, callStateChange, callEventChange,
      publishMessage, hne, TraceOk, obsOk]
    exact fun a b hab => traceOk_mem (traceOk_destory _) (a, b) hab
  · simp [cancelCallTimerFire, hs, TraceOk]

theorem traceOk_onUserJoined (u : Nat) (e : CallApi) :
    TraceOk (onUserJoined u e).trace := by
  by_cases hu : u ≠ e.remoteUserId <;>
    simp [onUserJoined, hu, callInfoAdd, callEventChange, TraceOk, obsOk]

theorem traceOk_onUserLeft (u : Nat) (e : CallApi) :
    TraceOk (onUserLeft u e).trace := by
  by_cases hu : u ≠ e.remoteUserId
  · simp [onUserLeft, hu, TraceOk]
  · by_cases hb : isBusy e
    · by_cases hs : (destory e).engine.state = CallStateType.prepared <;>
        simp [onUserLeft, hu, hb, callEventChange, callStateChange, hs,
          TraceOk, obsOk] <;>
        exact fun a b hab => traceOk_mem (traceOk_destory _) (a, b) hab
    · simp [onUserLeft, hu, hb, callEventChange, TraceOk, obsOk]

theorem traceOk_handleRemoteFirstFrameDecoded (e : CallApi) :
    TraceOk (handleRemoteFirstFrameDecoded e).trace := by
  simp [handleRemoteFirstFrameDecoded, callEventChange, callInfoAdd,
    TraceOk, obsOk]
  exact fun a b hab => traceOk_mem (traceOk_checkAppendView _) (a, b) hab

/-- Every emission of every atomic step satisfies the rendezvous trace
discipline `obsOk`. -/
theorem traceOk_applyStep (s : Step) (e : CallApi) :
    TraceOk (applyStep s e).trace := by
  cases s
  · exact traceOk_prepareForCall _ _
  · exact traceOk_call _ _ _ _
  · exact traceOk_cancelCall _
  · exact traceOk_accept _ _
  · exact traceOk_reject _ _ _
  · exact traceOk_hangup _ _
  · exact traceOk_destory _
  · exact traceOk_onMessageReceive _ _
  · by_cases ht : e.timerPending
    · simpa [applyStep, ht] using traceOk_cancelCallTimerFire e
    · simp [applyStep, ht, TraceOk]
  · exact traceOk_onUserJoined _ _
  · exact traceOk_onUserLeft _ _
  · simp [applyStep, onUserPublishedVideo, TraceOk]
    split <;> simp [TraceOk]
  · simp [applyStep, onUserPublishedAudio, TraceOk]
    split <;> simp [TraceOk]
  · simp [applyStep, onUserUnpublishedVideo, TraceOk]
    split <;> simp [TraceOk]
  · simp [applyStep, onUserUnpublishedAudio, TraceOk]
    split <;> simp [TraceOk]
  · exact traceOk_handleRemoteFirstFrameDecoded _

/-! ## Field preservation helpers -/

theorem autoCancelCall_core (b : Bool) (e : CallApi) :
    (autoCancelCall b e).state = e.state ∧
    (autoCancelCall b e).callId = e.callId ∧
    (autoCancelCall b e).remoteUserId = e.remoteUserId ∧
    (autoCancelCall b e).autoAccept = e.autoAccept := by
  unfold autoCancelCall
  split
  · simp
  · split
    · simp
    · split <;> simp

theorem autoCancelCall_state (b : Bool) (e : CallApi) :
    (autoCancelCall b e).state = e.state := (autoCancelCall_core b e).1

theorem autoCancelCall_callId (b : Bool) (e : CallApi) :
    (autoCancelCall b e).callId = e.callId := (autoCancelCall_core b e).2.1

theorem rtcJoinAndPublish_state (e : CallApi) :
    (rtcJoinAndPublish e).engine.state = e.state := (rtcJoinAndPublish_core e).1

theorem rtcJoinAndPublish_callId (e : CallApi) :
    (rtcJoinAndPublish e).engine.callId = e.callId := (rtcJoinAndPublish_core e).2.1

theorem rtcJoinAndPublish_remoteUserId (e : CallApi) :
    (rtcJoinAndPublish e).engine.remoteUserId = e.remoteUserId :=
  (rtcJoinAndPublish_core e).2.2.1

theorem rtcJoinAndPublish_timerPending (e : CallApi) :
    (rtcJoinAndPublish e).engine.timerPending = e.timerPending :=
  (rtcJoinAndPublish_core e).2.2.2.1

theorem rtcJoinAndPublish_autoAccept (e : CallApi) :
    (rtcJoinAndPublish e).engine.autoAccept = e.autoAccept :=
  (rtcJoinAndPublish_core e).2.2.2.2

theorem callStateChange_fst_state (st : CallStateType) (r : CallStateReason)
    (er : Option String) (i : EventInfo) (e : CallApi) :
    ((callStateChange st r er i e).1).state = st := by
  unfold callStateChange
  split <;> simp_all

theorem callStateChange_fst_callId (st : CallStateType) (r : CallStateReason)
    (er : Option String) (i : EventInfo) (e : CallApi) :
    ((callStateChange st r er i e).1).callId = e.callId := by
  unfold callStateChange
  split <;> simp

theorem callStateChange_fst_timer (st : CallStateType) (r : CallStateReason)
    (er : Option String) (i : EventInfo) (e : CallApi) :
    ((callStateChange st r er i e).1).timerPending = e.timerPending := by
  unfold callStateChange
  split <;> simp

theorem checkAppendView_busy (e : CallApi)
    (h : e.state = CallStateType.connecting) :
    isBusy (checkAppendView e).engine = true := by
  rcases (checkAppendView_core e).2.2.2 with h2 | ⟨h1, h2⟩ <;>
    simp [isBusy, h2, h]

theorem accept_busy (u : Nat) (e : CallApi)
    (h : e.state = CallStateType.calling) :
    isBusy (accept u e).engine = true := by
  simp [accept, h, callInfoAdd, callEventChange, publishMessage,
    checkAppendView_busy, callStateChange_fst_state]

/-! ## The one-step case analysis used by the state invariants -/

/-- After any atomic step the engine is unchanged, or fully reset
(callId cleared, timer disarmed), or busy, or its callId and busy-ness
are carried over with the timer either untouched or disarmed. -/
theorem step_cases (s : Step) (e : CallApi) :
    (applyStep s e).engine = e ∨
    ((applyStep s e).engine.callId = "" ∧
      (applyStep s e).engine.timerPending = false) ∨
    isBusy (applyStep s e).engine = true ∨
    ((applyStep s e).engine.callId = e.callId ∧
      isBusy (applyStep s e).engine = isBusy e ∧
      ((applyStep s e).engine.timerPending = e.timerPending ∨
        (applyStep s e).engine.timerPending = false)) := by
  cases s
  case prepare p =>
    by_cases hb : isBusy e
    · left
      simp [applyStep, prepareForCall, hb, callEventChange]
    · right; right; right
      cases he : e.state <;>
        simp_all [applyStep, prepareForCall, mergeConfig, callStateChange,
          isBusy] <;>
        rfl
  case callCmd u ct id =>
    by_cases hs : e.state = CallStateType.prepared
    · right; right; left
      simp [applyStep, call, hs, callInfoStart, callInfoAdd, callEventChange,
        publishMessage, callStateChange, rtcJoinAndPublish_state,
        autoCancelCall_state, isBusy]
    · left
      simp [applyStep, call, hs, callEventChange]
  case cancelCmd =>
    right; left
    simp [applyStep, cancelCall, callStateChange, callEventChange,
      publishMessage, destory_engine, resetData_callId, resetData_timer]
  case acceptCmd u =>
    by_cases hs : e.state = CallStateType.calling
    · right; right; left
      simp [applyStep, accept_busy, hs]
    · left
      simp [applyStep, accept, hs, callEventChange]
  case rejectCmd u r =>
    right; left
    simp [applyStep, reject, callStateChange, callEventChange,
      publishMessage, destory_engine, resetData_callId, resetData_timer]
  case hangupCmd u =>
    right; left
    simp [applyStep, hangup, callStateChange, callEventChange,
      publishMessage, destory_engine, resetData_callId, resetData_timer]
  case destroyCmd =>
    right; left
    simp [applyStep, destory_engine, resetData_callId, resetData_timer]
  case message m =>
    simp only [applyStep]
    unfold onMessageReceive
    split
    · -- VideoCall
      unfold receiveVideoCall
      split
      · -- busy with another peer: auto-reject, engine untouched
        left
        simp [autoReject, publishMessage]
      · right; right; left
        simp only [callInfoStart]
        split
        · dsimp only
          simp [rtcJoinAndPublish_state, callEventChange,
            callStateChange_fst_state, isBusy]
        · split
          · dsimp only
            apply accept_busy
            simp [rtcJoinAndPublish_state, callEventChange,
              callStateChange_fst_state]
          · dsimp only
            simp [rtcJoinAndPublish_state, callEventChange,
              callStateChange_fst_state, isBusy]
    · -- AudioCall: TODO in the source, no-op
      left; rfl
    · -- Cancel
      by_cases hg : isCallingUser m.fromUserId e
      · right; left
        simp [receiveCancelCall, hg, callStateChange_fst_callId,
          callStateChange_fst_timer, callEventChange, destory_engine,
          resetData_callId, resetData_timer]
      · left
        have hg2 : isCallingUser m.fromUserId e = false := by simpa using hg
        simp [receiveCancelCall, hg2]
    · -- Accept
      right; right; left
      simp [receiveAccept, callInfoAdd, callEventChange, checkAppendView_busy,
        callStateChange_fst_state]
    · -- Reject
      by_cases hg : isCallingUser m.fromUserId e
      · right; left
        by_cases hint : m.rejectByInternal = Option.some RejectByInternal.internal <;>
          simp [receiveReject, hg, hint, callEventChange,
            callStateChange_fst_callId, callStateChange_fst_timer,
            destory_engine, resetData_callId, resetData_timer]
      · left
        have hg2 : isCallingUser m.fromUserId e = false := by simpa using hg
        simp [receiveReject, hg2]
    · -- Hangup
      by_cases hg : isCallingUser m.fromUserId e
      · right; left
        simp [receiveHangup, hg, callStateChange_fst_callId,
          callStateChange_fst_timer, callEventChange, destory_engine,
          resetData_callId, resetData_timer]
      · left
        have hg2 : isCallingUser m.fromUserId e = false := by simpa using hg
        simp [receiveHangup, hg2]
  case timerFired =>
    by_cases ht : e.timerPending
    · by_cases hs : ({ e with timerPending := false } : CallApi).state =
          CallStateType.calling ∨
          ({ e with timerPending := false } : CallApi).state = CallStateType.connecting
      · right; left
        simp [applyStep, ht, cancelCallTimerFire, hs, callStateChange,
          callEventChange, publishMessage, destory_engine, resetData_callId,
          resetData_timer]
      · right; right; right
        simp [applyStep, ht, cancelCallTimerFire, hs, isBusy]
    · left
      simp [applyStep, ht]
  case rtcUserJoined u =>
    by_cases hu : u ≠ e.remoteUserId
    · left; simp [applyStep, onUserJoined, hu]
    · right; right; right
      simp [applyStep, onUserJoined, hu, callInfoAdd, callEventChange, isBusy]
  case rtcUserLeft u =>
    by_cases hu : u ≠ e.remoteUserId
    · left; simp [applyStep, onUserLeft, hu]
    · by_cases hb : isBusy e
      · right; left
        simp [applyStep, onUserLeft, hu, hb, callEventChange,
          callStateChange_fst_callId, callStateChange_fst_timer,
          destory_engine, resetData_callId, resetData_timer]
      · left
        simp [applyStep, onUserLeft, hu, hb, callEventChange]
  case rtcUserPublishedVideo u =>
    by_cases hu : u ≠ e.remoteUserId
    · left; simp [applyStep, onUserPublishedVideo, hu]
    · right; right; right
      simp [applyStep, onUserPublishedVideo, hu, isBusy]
  case rtcUserPublishedAudio u =>
    by_cases hu : u ≠ e.remoteUserId
    · left; simp [applyStep, onUserPublishedAudio, hu]
    · right; right; right
      simp [applyStep, onUserPublishedAudio, hu, isBusy]
  case rtcUserUnpublishedVideo u =>
    by_cases hu : u ≠ e.remoteUserId
    · left; simp [applyStep, onUserUnpublishedVideo, hu]
    · right; right; right
      simp [applyStep, onUserUnpublishedVideo, hu, isBusy]
  case rtcUserUnpublishedAudio u =>
    by_cases hu : u ≠ e.remoteUserId
    · left; simp [applyStep, onUserUnpublishedAudio, hu]
    · right; right; right
      simp [applyStep, onUserUnpublishedAudio, hu, isBusy]
  case firstFrameDecoded =>
    right; right; right
    simp only [applyStep]
    unfold handleRemoteFirstFrameDecoded
    simp only [callEventChange, callInfoAdd]
    rcases checkAppendView_core
        { e with receiveRemoteFirstFrameDecoded := true,
                 milestones := e.milestones ++ ["recvFirstFrame"] }
      with ⟨hc1, hc2, hc3, hc4⟩
    refine ⟨hc1, ?_, Or.inl hc3⟩
    rcases hc4 with h | ⟨h1, h2⟩
    · simp [isBusy, h]
    · simp only [isBusy, h2]
      simp only [CallApi.state] at h1
      simp [h1]

/-! ## Reachability invariants -/

/-- The codec holds a callId only while a call is underway. -/
def CallIdInv (e : CallApi) : Prop := getCallId e ≠ "" → isBusy e = true

/-- The cancel/timeout timer is pending only while a call is underway. -/
def TimerInv (e : CallApi) : Prop := e.timerPending = true → isBusy e = true

theorem invs_preserved (s : Step) (e : CallApi) (h2 : CallIdInv e)
    (h6 : TimerInv e) :
    CallIdInv (applyStep s e).engine ∧ TimerInv (applyStep s e).engine := by
  rcases step_cases s e with hc | ⟨hc1, hc2⟩ | hc | ⟨hc1, hc2, hc3⟩
  · rw [hc]
    exact ⟨h2, h6⟩
  · simp [CallIdInv, TimerInv, getCallId, hc1, hc2]
  · simp [CallIdInv, TimerInv, hc]
  · constructor
    · intro hne
      rw [getCallId, hc1] at hne
      rw [hc2]
      exact h2 hne
    · rcases hc3 with h | h
      · intro ht
        rw [h] at ht
        rw [hc2]
        exact h6 ht
      · intro ht
        rw [h] at ht
        cases ht

theorem reach_invs (e : CallApi) (h : Reach e) : CallIdInv e ∧ TimerInv e := by
  induction h with
  | init u =>
    constructor <;> intro h <;> simp [initEngine, getCallId] at h
  | step e s hr ih => exact invs_preserved s e ih.1 ih.2

/-! ## Concrete scenario used by witnesses and counterexamples -/

/-- A full `prepareForCall` configuration: room and token present, both
views provided, no auto accept, a 5 ms timeout, and
`firstFrameWaittingDisabled` so the rendezvous fires on accept. -/
def cxPatch : PrepPatch where
  roomId := Option.some (Option.some "r")
  rtcToken := Option.some true
  localView := Option.some true
  remoteView := Option.some true
  autoAccept := Option.some false
  callTimeoutMillisecond := Option.some (Option.some 5)
  firstFrameWaittingDisabled := Option.some true

/-- Engine of user 1 after `prepareForCall`. -/
def cxPrepared : CallApi := (applyStep (Step.prepare cxPatch) (initEngine 1)).engine

/-- The same engine after `call(2)` (callId "cid"). -/
def cxCalling : CallApi :=
  (applyStep (Step.callCmd 2 CallType.video "cid") cxPrepared).engine

/-- Inbound Accept from the callee (user 2). -/
def cxMsgAccept : InMessage where
  callId := "cid"
  fromUserId := 2
  remoteUserId := 1
  fromRoomId := Option.some "r"
  action := CallAction.accept
  rejectReason := Option.none
  rejectByInternal := Option.none
  cancelCallByInternal := Option.none

/-- The engine after the Accept arrives: `connecting` then immediately
latched `connected` by the view-attach check. -/
def cxConnected : CallApi :=
  (applyStep (Step.message cxMsgAccept) cxCalling).engine

theorem reach_cxPrepared : Reach cxPrepared :=
  Reach.step _ _ (Reach.init 1)

theorem reach_cxCalling : Reach cxCalling :=
  Reach.step _ _ reach_cxPrepared

theorem reach_cxConnected : Reach cxConnected :=
  Reach.step _ _ reach_cxCalling

/-! ## Claim C2 -/

/-- C2 (amended): at run-to-completion points of every command and
inbound-signal sequence, `getCallId()` returns a non-empty string only
if the engine state is in {calling, connecting, connected}
(equivalently, it returns the empty string in `idle` and `prepared`).
The original biconditional at every emission point fails, see the
counterexample: `call()` emits the `calling` state change before the
fresh callId is assigned, and the teardown commands emit the `prepared`
state change before `_resetData` clears the callId. -/
theorem c2_getCallId_nonempty_only_when_busy (e : CallApi) (hr : Reach e)
    (hne : getCallId e ≠ "") : isBusy e = true :=
  (reach_invs e hr).1 hne

theorem c2_getCallId_nonempty_only_when_busy_witness :
    getCallId cxCalling ≠ "" ∧ isBusy cxCalling = true :=
  ⟨by decide, c2_getCallId_nonempty_only_when_busy cxCalling reach_cxCalling (by decide)⟩

/-- C2 counterexample: at the emission point of the `calling` state
change inside `call()`, the state is already `calling` while
`getCallId()` is still empty; at the emission point of the `prepared`
state change inside `cancelCall()`, the state is already `prepared`
while `getCallId()` is still the non-empty "cid".  Both contradict
"non-empty exactly when state is in {calling, connecting, connected}
at every observable point". -/
theorem c2_counterexample :
    ((call 2 CallType.video "cid" cxPrepared).trace.head?.map
        (fun q => (q.1.state, getCallId q.1))) =
      Option.some (CallStateType.calling, "") ∧
    ((cancelCall cxCalling).trace.head?.map
        (fun q => (q.1.state, getCallId q.1))) =
      Option.some (CallStateType.prepared, "cid") := by
  constructor <;> rfl

/-! ## Claim C6 -/

/-- C6 (amended): the cancel/timeout timer is pending only while the
state is in {calling, connecting, connected} — not "iff state is in
{calling, connecting}": the timer stays armed after the engine latches
`connected` (nothing disarms it there), and entering `calling` arms it
only when `callTimeoutMillisecond` is configured.  Re-arming replaces
the previous timer and `_resetData` disarms it (second conjunct). -/
theorem c6_timer_pending_only_when_busy (e : CallApi) :
    (Reach e → e.timerPending = true → isBusy e = true) ∧
    (resetData e).timerPending = false :=
  ⟨fun hr ht => (reach_invs e hr).2 ht, rfl⟩

theorem c6_timer_pending_only_when_busy_witness :
    cxCalling.timerPending = true ∧ isBusy cxCalling = true ∧
    (resetData cxCalling).timerPending = false :=
  ⟨by decide,
   (c6_timer_pending_only_when_busy cxCalling).1 reach_cxCalling (by decide),
   (c6_timer_pending_only_when_busy cxCalling).2⟩

/-- C6 counterexample: after prepare, `call(2)` (timer armed) and the
remote Accept, the engine is `connected` with the timeout timer still
pending, refuting "armed iff state is in {calling, connecting}". -/
theorem c6_counterexample :
    cxConnected.timerPending = true ∧
    cxConnected.state = CallStateType.connected ∧
    ¬(cxConnected.timerPending = true ↔
      (cxConnected.state = CallStateType.calling ∨
       cxConnected.state = CallStateType.connecting)) := by
  refine ⟨by rfl, by rfl, ?_⟩
  decide

/-! ## Claim C8 -/

/-- C8: `_callStateChange` is idempotent on the state component: for
every target state, reason and eventInfo, invoking it when the current
state already equals the target changes nothing and emits no
`callStateChanged` event, regardless of the reason or eventInfo. -/
theorem c8_callStateChange_self_noop (st : CallStateType) (r : CallStateReason)
    (er : Option String) (i : EventInfo) (e : CallApi) (h : e.state = st) :
    callStateChange st r er i e = (e, []) := by
  simp [callStateChange, h]

theorem c8_callStateChange_self_noop_witness :
    (initEngine 1).state = CallStateType.idle ∧
    callStateChange CallStateType.idle CallStateReason.localCancel
      (Option.some "x") (EventInfo.callerInfo 2 1) (initEngine 1) =
      (initEngine 1, []) :=
  ⟨rfl, c8_callStateChange_self_noop CallStateType.idle CallStateReason.localCancel
    (Option.some "x") (EventInfo.callerInfo 2 1) (initEngine 1) rfl⟩

/-! ## Claim C4 -/

/-- C4: an inbound VideoCall whose sender fails `_isCallingUser` (the
engine is committed to a different peer) leaves the engine exactly as it
was — no state change, callId, remoteUserId and callInfo untouched — and
its entire observable effect is one outbound Reject to the inviter with
rejectReason "busy" and rejectByInternal Internal. -/
theorem c4_receiveVideoCall_busy_autoreject (m : InMessage) (e : CallApi)
    (hg : isCallingUser m.fromUserId e = false) :
    receiveVideoCall m e =
      ⟨e,
       [(e, Obs.sendMessage m.fromUserId e.callId
          { fromUserId := e.userId, remoteUserId := m.fromUserId,
            fromRoomId := Option.none, action := CallAction.reject,
            rejectReason := Option.some "busy",
            rejectByInternal := Option.some RejectByInternal.internal,
            cancelCallByInternal := Option.none })],
       Option.none⟩ := by
  simp [receiveVideoCall, hg, autoReject, publishMessage]

/-- Inbound invite from user 3 while engine 1 is calling user 2. -/
def cxMsgInviteFrom3 : InMessage where
  callId := "other"
  fromUserId := 3
  remoteUserId := 1
  fromRoomId := Option.some "r3"
  action := CallAction.videoCall
  rejectReason := Option.none
  rejectByInternal := Option.none
  cancelCallByInternal := Option.none

theorem c4_receiveVideoCall_busy_autoreject_witness :
    isCallingUser cxMsgInviteFrom3.fromUserId cxCalling = false ∧
    receiveVideoCall cxMsgInviteFrom3 cxCalling =
      ⟨cxCalling,
       [(cxCalling, Obs.sendMessage 3 cxCalling.callId
          { fromUserId := cxCalling.userId, remoteUserId := 3,
            fromRoomId := Option.none, action := CallAction.reject,
            rejectReason := Option.some "busy",
            rejectByInternal := Option.some RejectByInternal.internal,
            cancelCallByInternal := Option.none })],
       Option.none⟩ :=
  ⟨by decide, c4_receiveVideoCall_busy_autoreject cxMsgInviteFrom3 cxCalling (by decide)⟩

/-! ## Claim C9 -/

/-- Engine stuck in `connecting` with the frame condition satisfied but no remote
view container. -/
def cxConnectingNoRemoteView : CallApi :=
  { cxCalling with state := CallStateType.connecting, remoteView := false }

/-- Engine in `connecting` with the frame condition satisfied but no local
view container. -/
def cxConnectingNoLocalView : CallApi :=
  { cxCalling with state := CallStateType.connecting, localView := false }

/-- C9 (amended): when `_checkAppendView` runs in `connecting` with the
frame condition satisfied but a view container missing, it first latches
`connected` (emitting the `recvRemoteFirstFrame` state change) and only
then throws, leaving the engine in `connected` with no `callError`
emitted; when `localView` is missing nothing is attached, but when only
`remoteView` is missing the local view has already been attached before
the throw. -/
theorem c9_checkAppendView_missing_view (e : CallApi)
    (h1 : e.state = CallStateType.connecting)
    (h2 : e.firstFrameWaittingDisabled = true ∨
      e.receiveRemoteFirstFrameDecoded = true) :
    (e.localView = false →
      checkAppendView e =
        ⟨{ e with state := CallStateType.connected },
         [({ e with state := CallStateType.connected },
           Obs.stateChanged CallStateType.connected
             CallStateReason.recvRemoteFirstFrame Option.none EventInfo.noInfo)],
         Option.some "localView is undefined"⟩) ∧
    (e.localView = true → e.remoteView = false →
      checkAppendView e =
        ⟨{ e with state := CallStateType.connected, localViewAttached := true },
         [({ e with state := CallStateType.connected },
           Obs.stateChanged CallStateType.connected
             CallStateReason.recvRemoteFirstFrame Option.none EventInfo.noInfo),
          ({ e with state := CallStateType.connected, localViewAttached := true },
           Obs.attachLocalView)],
         Option.some "remoteView is undefined"⟩) := by
  have hb : (e.firstFrameWaittingDisabled || e.receiveRemoteFirstFrameDecoded) = true := by
    rcases h2 with h | h <;> simp [h]
  constructor
  · intro hl
    simp [checkAppendView, callStateChange, h1, hb, hl]
  · intro hl hr
    simp [checkAppendView, callStateChange, h1, hb, hl, hr]

theorem c9_checkAppendView_missing_view_witness :
    cxConnectingNoRemoteView.state = CallStateType.connecting ∧
    cxConnectingNoRemoteView.firstFrameWaittingDisabled = true ∧
    cxConnectingNoRemoteView.localView = true ∧
    cxConnectingNoRemoteView.remoteView = false ∧
    (checkAppendView cxConnectingNoRemoteView).thrown =
      Option.some "remoteView is undefined" ∧
    (checkAppendView cxConnectingNoRemoteView).engine.state =
      CallStateType.connected := by
  have h := (c9_checkAppendView_missing_view cxConnectingNoRemoteView
    (by decide) (Or.inl (by decide))).2 (by decide) (by decide)
  exact ⟨by decide, by decide, by decide, by decide, by rw [h], by rw [h]⟩

/-- C9 counterexample: with only `remoteView` unset, the throw happens
after the local view was already attached, refuting "no views attached". -/
theorem c9_counterexample :
    (checkAppendView cxConnectingNoRemoteView).thrown =
      Option.some "remoteView is undefined" ∧
    (checkAppendView cxConnectingNoRemoteView).engine.state =
      CallStateType.connected ∧
    (checkAppendView cxConnectingNoRemoteView).engine.localViewAttached = true ∧
    ((checkAppendView cxConnectingNoRemoteView).trace.countP
      (fun q => q.2 == Obs.attachLocalView)) = 1 := by
  refine ⟨rfl, rfl, rfl, rfl⟩

/-! ## Claim C5 -/

/-- C5: when the armed timeout fires in state `calling` or `connecting`
the engine transitions to `prepared` with reason `callingTimeout`, emits
`callingTimeout` when the timer was armed by the local `call()` path and
`remoteCallingTimeout` when armed by the inbound-invite path, sends a
Cancel with `cancelCallByInternal=Internal`, and destroys (emitting
`localLeft` when the channel was joined, then resetting); when it fires
in any other state it has no observable effect (the pending flag merely
clears). -/
theorem c5_timer_fire_spec (e : CallApi) :
    ((e.state = CallStateType.calling ∨ e.state = CallStateType.connecting) →
      cancelCallTimerFire e =
        ⟨resetData { e with timerPending := false, state := CallStateType.prepared },
         [({ e with timerPending := false, state := CallStateType.prepared },
           Obs.stateChanged CallStateType.prepared CallStateReason.callingTimeout
             Option.none EventInfo.noInfo),
          ({ e with timerPending := false, state := CallStateType.prepared },
           Obs.eventChanged (if e.timerIsLocal then CallEvent.callingTimeout
             else CallEvent.remoteCallingTimeout)),
          ({ e with timerPending := false, state := CallStateType.prepared },
           Obs.sendMessage e.remoteUserId e.callId
             { fromUserId := e.userId, remoteUserId := e.remoteUserId,
               fromRoomId := Option.none, action := CallAction.cancel,
               rejectReason := Option.none, rejectByInternal := Option.none,
               cancelCallByInternal := Option.some RejectByInternal.internal })] ++
          (if e.rtcJoined then
            [({ e with timerPending := false, state := CallStateType.prepared },
              Obs.eventChanged CallEvent.localLeft)]
           else []),
         Option.none⟩) ∧
    (e.state ≠ CallStateType.calling → e.state ≠ CallStateType.connecting →
      cancelCallTimerFire e =
        ⟨{ e with timerPending := false }, [], Option.none⟩) := by
  constructor
  · intro h
    rcases h with h | h <;> by_cases hj : e.rtcJoined <;>
      simp [cancelCallTimerFire, h, hj, callStateChange, callEventChange,
        publishMessage, destory, resetData, resetView, callInfoEnd]
  · intro h1 h2
    simp [cancelCallTimerFire, h1, h2]

theorem c5_timer_fire_spec_witness :
    (cxCalling.state = CallStateType.calling ∨
      cxCalling.state = CallStateType.connecting) ∧
    (cancelCallTimerFire cxCalling).engine.state = CallStateType.prepared ∧
    (cancelCallTimerFire cxCalling).thrown = Option.none ∧
    cxConnected.state ≠ CallStateType.calling ∧
    cxConnected.state ≠ CallStateType.connecting ∧
    cancelCallTimerFire cxConnected =
      ⟨{ cxConnected with timerPending := false }, [], Option.none⟩ := by
  have h1 := (c5_timer_fire_spec cxCalling).1 (Or.inl (by decide))
  have h2 := (c5_timer_fire_spec cxConnected).2 (by decide) (by decide)
  refine ⟨Or.inl (by decide), ?_, ?_, by decide, by decide, h2⟩
  · rw [h1]
    rfl
  · rw [h1]

/-! ## Claim C3 -/

/-- C3 (amended): for an inbound Reject whose sender passes
`_isCallingUser` and arrives while the engine is not already in
`prepared`: `rejectByInternal = Internal` maps to state reason
`remoteCallBusy` with the extra `remoteCallBusy` event, any other value
maps to `remoteRejected`; the whole teardown (`destory`, including its
`localLeft` emission and data reset) completes before the `prepared`
state change carrying `eventInfo.rejectReason` is emitted, and the
`remoteRejected` event is emitted after that state change.  The
not-already-`prepared` hypothesis is forced: in `prepared`
`remoteUserId` is 0, so the gate passes for any sender, and the
`prepared` state change is then suppressed as a self-transition while
destroy and `remoteRejected` still run — see the counterexample. -/
theorem c3_receiveReject_order_and_mapping (m : InMessage) (e : CallApi)
    (hg : isCallingUser m.fromUserId e = true)
    (hne : e.state ≠ CallStateType.prepared) :
    receiveReject m e =
      ⟨{ resetData e with state := CallStateType.prepared },
       (if m.rejectByInternal = Option.some RejectByInternal.internal then
          [(e, Obs.eventChanged CallEvent.remoteCallBusy)]
        else []) ++
       (if e.rtcJoined then [(e, Obs.eventChanged CallEvent.localLeft)] else []) ++
       [({ resetData e with state := CallStateType.prepared },
         Obs.stateChanged CallStateType.prepared
           (if m.rejectByInternal = Option.some RejectByInternal.internal then
              CallStateReason.remoteCallBusy
            else CallStateReason.remoteRejected)
           (Option.some "") (EventInfo.rejectInfo m.rejectReason)),
        ({ resetData e with state := CallStateType.prepared },
         Obs.eventChanged CallEvent.remoteRejected)],
       Option.none⟩ := by
  have hs : (resetData e).state = e.state := rfl
  by_cases hint : m.rejectByInternal = Option.some RejectByInternal.internal <;>
    by_cases hj : e.rtcJoined <;>
    simp [receiveReject, hg, hint, hj, callEventChange, callStateChange,
      destory, resetData, resetView, callInfoEnd, hne]

/-- Inbound busy-Reject from user 2. -/
def cxMsgRejectBusy : InMessage where
  callId := "cid"
  fromUserId := 2
  remoteUserId := 1
  fromRoomId := Option.none
  action := CallAction.reject
  rejectReason := Option.some "busy"
  rejectByInternal := Option.some RejectByInternal.internal
  cancelCallByInternal := Option.none

theorem c3_receiveReject_order_and_mapping_witness :
    isCallingUser cxMsgRejectBusy.fromUserId cxCalling = true ∧
    cxCalling.state ≠ CallStateType.prepared ∧
    (receiveReject cxMsgRejectBusy cxCalling).trace =
      [(cxCalling, Obs.eventChanged CallEvent.remoteCallBusy),
       (cxCalling, Obs.eventChanged CallEvent.localLeft),
       ({ resetData cxCalling with state := CallStateType.prepared },
        Obs.stateChanged CallStateType.prepared CallStateReason.remoteCallBusy
          (Option.some "") (EventInfo.rejectInfo (Option.some "busy"))),
       ({ resetData cxCalling with state := CallStateType.prepared },
        Obs.eventChanged CallEvent.remoteRejected)] := by
  have h := c3_receiveReject_order_and_mapping cxMsgRejectBusy cxCalling
    (by decide) (by decide)
  refine ⟨by decide, by decide, ?_⟩
  rw [h]
  rfl

/-- C3 counterexample: a Reject arriving while the engine already sits
in `prepared` (after teardown `remoteUserId = 0`, so `_isCallingUser`
passes for any sender) is squarely in the claim's stated domain, yet the
`prepared` state change carrying `eventInfo.rejectReason` is suppressed
as a self-transition: the full run consists of the `remoteCallBusy`
event, the (already-clean) teardown, and the `remoteRejected` event —
no `callStateChanged` emission at all, refuting the claim that the
state change is emitted (between destroy and `remoteRejected`) for
every gated inbound Reject. -/
theorem c3_counterexample :
    isCallingUser cxMsgRejectBusy.fromUserId cxPrepared = true ∧
    cxPrepared.state = CallStateType.prepared ∧
    cxPrepared.remoteUserId = 0 ∧
    receiveReject cxMsgRejectBusy cxPrepared =
      ⟨resetData cxPrepared,
       [(cxPrepared, Obs.eventChanged CallEvent.remoteCallBusy),
        (resetData cxPrepared, Obs.eventChanged CallEvent.remoteRejected)],
       Option.none⟩ := by
  refine ⟨rfl, rfl, rfl, rfl⟩

/-! ## Claim C7 -/

/-- Whether `callTimeoutMillisecond` is set to a truthy value. -/
def timeoutConfigured (e : CallApi) : Bool :=
  match e.callTimeoutMillisecond with
  | Option.none => false
  | Option.some t => t != 0

theorem autoCancelCall_remoteUserId (b : Bool) (e : CallApi) :
    (autoCancelCall b e).remoteUserId = e.remoteUserId :=
  (autoCancelCall_core b e).2.2.1

theorem autoCancelCall_timer (b : Bool) (e : CallApi)
    (h : e.timerPending = false) :
    ((autoCancelCall b e).timerPending = true ↔
      (e.remoteUserId ≠ 0 ∧ timeoutConfigured e = true)) := by
  unfold autoCancelCall timeoutConfigured
  split
  · simp_all
  · split
    · simp_all
    · split <;> simp_all

/-- C7 (amended): `call` in any state other than `prepared` emits only
`stateMismatch`, throws, and leaves the engine untouched.  In `prepared`
it performs, in order: start callInfo and set `remoteUserId`/`callType`
(visible in the first emission snapshot), emit the `calling` state
change with reason `localVideoCall`/`localAudioCall` and eventInfo
`{remoteUserId, fromUserId}`, emit `onCalling`, assign the fresh callId,
invoke the timer arm, then run media join/publish followed by the invite
send (stamped with the fresh callId) and the `remoteUserRecvCall`
milestone and event.  The timer actually arms — unlike the unconditional
claim — only when the remote user id is nonzero and
`callTimeoutMillisecond` is configured nonzero. -/
theorem c7_call_spec (e : CallApi) (u : Nat) (ct : CallType) (id : String) :
    (e.state ≠ CallStateType.prepared →
      call u ct id e =
        ⟨e, [(e, Obs.eventChanged CallEvent.stateMismatch)],
         Option.some "call failed! current state is not prepared state"⟩) ∧
    (e.state = CallStateType.prepared →
      (call u ct id e).trace =
        [({ e with
            milestones := ["start"], remoteUserId := u, callType := ct,
            state := CallStateType.calling },
          Obs.stateChanged CallStateType.calling
            (if ct = CallType.video then CallStateReason.localVideoCall
             else CallStateReason.localAudioCall)
            (Option.some "") (EventInfo.callerInfo u e.userId)),
         ({ e with
            milestones := ["start"], remoteUserId := u, callType := ct,
            state := CallStateType.calling },
          Obs.eventChanged CallEvent.onCalling)] ++
        (rtcJoinAndPublish (autoCancelCall true
          { e with
            milestones := ["start"], remoteUserId := u, callType := ct,
            state := CallStateType.calling, callId := id })).trace ++
        [((rtcJoinAndPublish (autoCancelCall true
            { e with
              milestones := ["start"], remoteUserId := u, callType := ct,
              state := CallStateType.calling, callId := id })).engine,
          Obs.sendMessage u id
            { fromUserId := e.userId, remoteUserId := u, fromRoomId := e.roomId,
              action := (if ct = CallType.video then CallAction.videoCall
                else CallAction.audioCall),
              rejectReason := Option.none, rejectByInternal := Option.none,
              cancelCallByInternal := Option.none }),
         (callInfoAdd "remoteUserRecvCall" (rtcJoinAndPublish (autoCancelCall true
            { e with
              milestones := ["start"], remoteUserId := u, callType := ct,
              state := CallStateType.calling, callId := id })).engine,
          Obs.eventChanged CallEvent.remoteUserRecvCall)] ∧
      (call u ct id e).thrown = Option.none ∧
      (call u ct id e).engine.state = CallStateType.calling ∧
      (call u ct id e).engine.remoteUserId = u ∧
      (call u ct id e).engine.callId = id ∧
      (e.timerPending = false →
        ((call u ct id e).engine.timerPending = true ↔
          (u ≠ 0 ∧ timeoutConfigured e = true)))) := by
  constructor
  · intro h
    simp [call, h, callEventChange]
  · intro hs
    have htc : timeoutConfigured
        { e with
            milestones := ["start"], remoteUserId := u, callType := ct,
            state := CallStateType.calling, callId := id } =
        timeoutConfigured e := rfl
    by_cases hv : ct = CallType.video <;>
      simp [call, hs, hv, callInfoStart, callInfoAdd, callEventChange,
        callStateChange, publishMessage, rtcJoinAndPublish_state,
        rtcJoinAndPublish_callId, rtcJoinAndPublish_remoteUserId,
        rtcJoinAndPublish_timerPending, autoCancelCall_state,
        autoCancelCall_callId, autoCancelCall_remoteUserId] <;>
      intro ht <;>
      rw [autoCancelCall_timer true _ (by simp [ht])] <;>
      simp [htc] <;>
      intro _ <;>
      rfl

theorem c7_call_spec_witness :
    cxPrepared.state = CallStateType.prepared ∧
    (call 2 CallType.video "cid" cxPrepared).thrown = Option.none ∧
    (call 2 CallType.video "cid" cxPrepared).engine.state = CallStateType.calling ∧
    (call 2 CallType.video "cid" cxPrepared).engine.remoteUserId = 2 ∧
    (call 2 CallType.video "cid" cxPrepared).engine.callId = "cid" ∧
    ((call 2 CallType.video "cid" cxPrepared).engine.timerPending = true ↔
      ((2 : Nat) ≠ 0 ∧ timeoutConfigured cxPrepared = true)) ∧
    cxConnected.state ≠ CallStateType.prepared ∧
    call 2 CallType.video "x" cxConnected =
      ⟨cxConnected, [(cxConnected, Obs.eventChanged CallEvent.stateMismatch)],
       Option.some "call failed! current state is not prepared state"⟩ := by
  have h := c7_call_spec cxPrepared 2 CallType.video "cid"
  have h2 := h.2 (by decide)
  have hmm := c7_call_spec cxConnected 2 CallType.video "x"
  exact ⟨by decide, h2.2.1, h2.2.2.1, h2.2.2.2.1, h2.2.2.2.2.1,
    h2.2.2.2.2.2 (by decide), by decide, hmm.1 (by decide)⟩

/-- `prepareForCall` configuration identical to `cxPatch` but with no
call timeout configured. -/
def cxPatchNoTimeout : PrepPatch :=
  { cxPatch with callTimeoutMillisecond := Option.some Option.none }

/-- Engine of user 1 prepared without a timeout. -/
def cxPreparedNoTimeout : CallApi :=
  (applyStep (Step.prepare cxPatchNoTimeout) (initEngine 1)).engine

/-- C7 counterexample: with `callTimeoutMillisecond` unset, `call(2)`
from `prepared` performs all its effects but the timeout timer is never
armed, refuting the unconditional "arm the timeout timer" effect. -/
theorem c7_counterexample :
    cxPreparedNoTimeout.state = CallStateType.prepared ∧
    (call 2 CallType.video "cid" cxPreparedNoTimeout).engine.state =
      CallStateType.calling ∧
    (call 2 CallType.video "cid" cxPreparedNoTimeout).engine.timerPending =
      false := by
  refine ⟨rfl, rfl, rfl⟩

/-! ## Claim C10 -/

theorem checkAppendView_no_events (e : CallApi) :
    ((checkAppendView e).trace.all
      (fun q => q.2 != Obs.eventChanged CallEvent.stateMismatch)) = true := by
  by_cases h1 : e.state = CallStateType.connecting
  · by_cases h2 : (e.firstFrameWaittingDisabled || e.receiveRemoteFirstFrameDecoded) = true
    · by_cases h3 : e.localView <;> by_cases h4 : e.remoteView <;>
        simp [checkAppendView, callStateChange, h1, h2, h3, h4]
    · simp [checkAppendView, callStateChange, h1, h2]
  · simp [checkAppendView, h1]

/-- C10: `accept(remoteUserId)` never compares its argument with the
committed `remoteUserId`: in state `calling` it proceeds for every
argument, emitting `localAccepted`, transitioning to `connecting` with
reason `localAccepted`, and sending the Accept message to the given user
id (first three conjunct); it never emits `stateMismatch`; and its
resulting engine state and thrown exception are identical for any two
argument values — the argument only selects the Accept recipient. -/
theorem c10_accept_no_peer_comparison (e : CallApi) (u v : Nat)
    (h : e.state = CallStateType.calling) :
    (accept u e).trace.take 3 =
      [(e, Obs.eventChanged CallEvent.localAccepted),
       ({ e with
            milestones := e.milestones ++ ["acceptCall"],
            state := CallStateType.connecting },
        Obs.stateChanged CallStateType.connecting CallStateReason.localAccepted
          Option.none EventInfo.noInfo),
       ({ e with
            milestones := e.milestones ++ ["acceptCall"],
            state := CallStateType.connecting },
        Obs.sendMessage u e.callId
          { fromUserId := e.userId, remoteUserId := u,
            fromRoomId := Option.none, action := CallAction.accept,
            rejectReason := Option.none, rejectByInternal := Option.none,
            cancelCallByInternal := Option.none })] ∧
    ((accept u e).trace.all
      (fun q => q.2 != Obs.eventChanged CallEvent.stateMismatch)) = true ∧
    (accept u e).engine = (accept v e).engine ∧
    (accept u e).thrown = (accept v e).thrown := by
  refine ⟨?_, ?_, ?_, ?_⟩
  · simp [accept, h, callInfoAdd, callEventChange, callStateChange,
      publishMessage]
  · simp [accept, h, callInfoAdd, callEventChange, callStateChange,
      publishMessage]
    intro a b hab
    have hq := List.all_eq_true.mp (checkAppendView_no_events _) (a, b) hab
    simpa using hq
  · simp [accept, h, callInfoAdd, callEventChange, callStateChange,
      publishMessage]
  · simp [accept, h, callInfoAdd, callEventChange, callStateChange,
      publishMessage]

theorem c10_accept_no_peer_comparison_witness :
    cxCalling.state = CallStateType.calling ∧
    (7 : Nat) ≠ cxCalling.remoteUserId ∧
    (accept 7 cxCalling).engine = (accept 3 cxCalling).engine ∧
    (accept 7 cxCalling).thrown = (accept 3 cxCalling).thrown :=
  have h := c10_accept_no_peer_comparison cxCalling 7 3 (by decide)
  ⟨by decide, by decide, h.2.2.1, h.2.2.2⟩

/-! ## Claim C1 -/

/-- `connecting` engine still waiting for the first frame. -/
def cxConnectingWaiting : CallApi :=
  { cxCalling with
      state := CallStateType.connecting,
      firstFrameWaittingDisabled := false }

/-- C1 (amended): `_checkAppendView` is a no-op unless the state is
`connecting` (first conjunct); in `connecting` it is a no-op unless
`firstFrameWaittingDisabled` is set or the remote first frame has been
decoded (second conjunct); when it proceeds it latches `connected`,
emitting first the state change with reason `recvRemoteFirstFrame`
(third conjunct).  The `TraceOk` conjunct states, over every emission of
every atomic step of the engine: a `callStateChanged` announcing
`connected` always carries reason `recvRemoteFirstFrame` — the latch in
`_checkAppendView` is the only writer of `connected` — and a view
attachment only ever happens while the engine state is `connected`.
Because the procedure no-ops once `connected` is latched, attachment is
at most once per entry into `connecting`; but not at most once per call:
an inbound Accept while `connected` (glare or duplicate) re-enters
`connecting` and attaches again, see the counterexample. -/
theorem c1_checkAppendView_rendezvous (e : CallApi) (s : Step) :
    (e.state ≠ CallStateType.connecting →
      checkAppendView e = ⟨e, [], Option.none⟩) ∧
    (e.state = CallStateType.connecting →
      e.firstFrameWaittingDisabled = false →
      e.receiveRemoteFirstFrameDecoded = false →
      checkAppendView e = ⟨e, [], Option.none⟩) ∧
    (e.state = CallStateType.connecting →
      (e.firstFrameWaittingDisabled = true ∨
        e.receiveRemoteFirstFrameDecoded = true) →
      (checkAppendView e).engine.state = CallStateType.connected ∧
      (checkAppendView e).trace.head? =
        Option.some ({ e with state := CallStateType.connected },
          Obs.stateChanged CallStateType.connected
            CallStateReason.recvRemoteFirstFrame Option.none EventInfo.noInfo)) ∧
    TraceOk (applyStep s e).trace := by
  refine ⟨?_, ?_, ?_, traceOk_applyStep s e⟩
  · intro h
    simp [checkAppendView, h]
  · intro h1 h2 h3
    simp [checkAppendView, h1, h2, h3]
  · intro h1 h2
    have hb : (e.firstFrameWaittingDisabled ||
        e.receiveRemoteFirstFrameDecoded) = true := by
      rcases h2 with h | h <;> simp [h]
    by_cases h3 : e.localView <;> by_cases h4 : e.remoteView <;>
      simp [checkAppendView, callStateChange, h1, hb, h3, h4]

theorem c1_checkAppendView_rendezvous_witness :
    checkAppendView cxCalling = ⟨cxCalling, [], Option.none⟩ ∧
    checkAppendView cxConnectingWaiting =
      ⟨cxConnectingWaiting, [], Option.none⟩ ∧
    (checkAppendView cxConnectingNoRemoteView).engine.state =
      CallStateType.connected ∧
    TraceOk (applyStep (Step.message cxMsgAccept) cxCalling).trace := by
  have h1 := c1_checkAppendView_rendezvous cxCalling (Step.message cxMsgAccept)
  have h2 := c1_checkAppendView_rendezvous cxConnectingWaiting Step.firstFrameDecoded
  have h3 := c1_checkAppendView_rendezvous cxConnectingNoRemoteView Step.firstFrameDecoded
  exact ⟨h1.1 (by decide), h2.2.1 (by decide) (by decide) (by decide),
    (h3.2.2.1 (by decide) (Or.inl (by decide))).1, h1.2.2.2⟩

/-- C1 counterexample: within one call (the callId stays "cid", the
engine never leaves the busy states and never tears down), a duplicate
or glare Accept received while `connected` re-enters `connecting` —
`_receiveAccept` has no state gate — and `_checkAppendView` transitions
and attaches a second time: two `attachLocalView` emissions in the same
call, refuting "exactly one invocation performs the transition, so view
attachment happens at most once per call". -/
theorem c1_counterexample :
    cxConnected.state = CallStateType.connected ∧
    (applyStep (Step.message cxMsgAccept) cxConnected).engine.state =
      CallStateType.connected ∧
    (applyStep (Step.message cxMsgAccept) cxConnected).engine.callId = "cid" ∧
    ((applyStep (Step.message cxMsgAccept) cxCalling).trace ++
     (applyStep (Step.message cxMsgAccept) cxConnected).trace).countP
      (fun q => q.2 == Obs.attachLocalView) = 2 := by
  refine ⟨rfl, rfl, rfl, rfl⟩

end CallApiModel
